import Mathlib

/-!
Verification development for the Alma-invoice → PAC fixed-width card
conversion engine (`invoice.py` of the alma-scripts repository).

The Python code is shallowly embedded: every dictionary becomes a structure,
monetary `Decimal` values become `ℚ` (Python `Decimal` arithmetic on the
amounts used here is exact rational arithmetic), Python slicing / padding
become explicit clamped list operations, and every place where the Python
code can raise an exception becomes an `Except String` value.
-/

namespace AlmaInvoice

/-! ## Python string primitives -/

/-- Python slice `s[a:b]` (clamping, never failing). -/
def pySlice (s : String) (a b : Nat) : String :=
  ⟨(s.data.drop a).take (b - a)⟩

/-- Python slice `s[:n]`. -/
def pyTake (s : String) (n : Nat) : String :=
  ⟨s.data.take n⟩

/-- Python `s.ljust(n, c)`: right-pad with `c` up to length `n`; never truncates. -/
def pyLjust (s : String) (n : Nat) (c : Char) : String :=
  ⟨s.data ++ List.replicate (n - s.data.length) c⟩

/-- Python `s.rjust(n, c)`: left-pad with `c` up to length `n`; never truncates. -/
def pyRjust (s : String) (n : Nat) (c : Char) : String :=
  ⟨List.replicate (n - s.data.length) c ++ s.data⟩

/-- Python `str.isascii`: every code point below 128. -/
def pyIsAscii (s : String) : Bool :=
  s.data.all (fun c => c.toNat < 128)

/-- Character-list comparison underlying `str.startswith`. -/
def chStarts : List Char → List Char → Bool
  | [], _ => true
  | _ :: _, [] => false
  | p :: ps, c :: cs => p = c && chStarts ps cs

/-- Python `s.startswith(pre)`. -/
def pyStartsWith (s pre : String) : Bool :=
  chStarts pre.data s.data

/-- Python `str.upper` restricted to its ASCII action (the PAC pipeline only
ever feeds it ASCII; `Char.toUpper` maps `a`-`z` and leaves the rest alone). -/
def pyUpper (s : String) : String :=
  ⟨s.data.map Char.toUpper⟩

/-- Python `'\n'.join(lines)`. -/
def pyJoinNl : List String → String
  | [] => ""
  | [s] => s
  | s :: rest => s ++ "\n" ++ pyJoinNl rest

/-- `Invoice._get_blanks`: `' '.ljust(num, ' ')` (note: at least one blank). -/
def getBlanks (num : Nat) : String :=
  pyLjust " " num ' '

/-! ## Numeric parsing (Python `int(...)` and `Decimal(...)` on strings) -/

def digitsToNat (ds : List Char) : Nat :=
  ds.foldl (fun n c => 10 * n + (c.toNat - '0'.toNat)) 0

/-- ASCII whitespace as stripped by `int()` and `Decimal()`. -/
def isPySpace (c : Char) : Bool :=
  c = ' ' ∨ c = '\t' ∨ c = '\n' ∨ c = '\r' ∨ c = '\x0b' ∨ c = '\x0c'

def stripSpaces (l : List Char) : List Char :=
  ((l.dropWhile isPySpace).reverse.dropWhile isPySpace).reverse

/-- Python `int(s)` for a decimal literal: optional surrounding blanks, an
optional sign, then at least one digit.  (Digit-grouping underscores are not
modelled; no input of this pipeline uses them.) -/
def pyInt? (s : String) : Option Int :=
  let t := stripSpaces s.data
  match t with
  | '-' :: ds => if ds ≠ [] ∧ ds.all Char.isDigit then some (-(digitsToNat ds : Int)) else none
  | '+' :: ds => if ds ≠ [] ∧ ds.all Char.isDigit then some (digitsToNat ds : Int) else none
  | ds => if ds ≠ [] ∧ ds.all Char.isDigit then some (digitsToNat ds : Int) else none

/-- Unsigned decimal mantissa `digits[.digits]` with at least one digit. -/
def parseMantissa (l : List Char) : Option ℚ :=
  let ip := l.takeWhile Char.isDigit
  match l.dropWhile Char.isDigit with
  | [] => if ip ≠ [] then some (digitsToNat ip : ℚ) else none
  | '.' :: fp =>
      if fp.all Char.isDigit ∧ (ip ≠ [] ∨ fp ≠ []) then
        some ((digitsToNat ip : ℚ) + (digitsToNat fp : ℚ) / (10 : ℚ) ^ fp.length)
      else none
  | _ => none

/-- A value accepted by the `Decimal` string constructor: either a finite
number (held exactly as a rational) or one of the special values
`Infinity`/`NaN`/`sNaN` (held as the canonical token — nothing in this
pipeline ever computes with a special value that reaches a stored field). -/
inductive PyDecimal where
  | finite (q : ℚ)
  | special (tok : String)
deriving DecidableEq

/-- Unsigned finite magnitude `digits[.digits][ (e|E) [sign] digits ]`. -/
def parseFiniteMag (r : List Char) : Option ℚ :=
  let mant := r.takeWhile (fun c => c ≠ 'e' ∧ c ≠ 'E')
  match r.dropWhile (fun c => c ≠ 'e' ∧ c ≠ 'E') with
  | [] => parseMantissa mant
  | _ :: ex =>
    let q : Bool × List Char :=
      match ex with
      | '-' :: rr => (false, rr)
      | '+' :: rr => (true, rr)
      | rr => (true, rr)
    if q.2 ≠ [] ∧ q.2.all Char.isDigit then
      (parseMantissa mant).map (fun m =>
        if q.1 then m * (10 : ℚ) ^ digitsToNat q.2
        else m / (10 : ℚ) ^ digitsToNat q.2)
    else none

/-- `Infinity` / `Inf` spelled case-insensitively (input already lowered). -/
def isInfToken (low : List Char) : Bool :=
  low = ['i', 'n', 'f'] ∨ low = ['i', 'n', 'f', 'i', 'n', 'i', 't', 'y']

/-- `NaN` with an optional integer payload (input already lowered). -/
def isNanToken : List Char → Bool
  | 'n' :: 'a' :: 'n' :: ds => ds.all Char.isDigit
  | _ => false

/-- `sNaN` with an optional integer payload (input already lowered). -/
def isSNanToken : List Char → Bool
  | 's' :: 'n' :: 'a' :: 'n' :: ds => ds.all Char.isDigit
  | _ => false

/-- Python `Decimal(s)` on a string: per the library documentation the
string must conform to the decimal numeric-string syntax after leading and
trailing whitespace, as well as underscores throughout, are removed; the
syntax is an optional sign followed by either a finite numeric literal
(digits with optional point and exponent) or, case-insensitively, one of
the special tokens `Inf`/`Infinity`, `NaN` or `sNaN` (the NaN forms with an
optional digit payload).  `none` means `Decimal` raises `InvalidOperation`. -/
def pyDecimal? (s : String) : Option PyDecimal :=
  let t := (stripSpaces s.data).filter (fun c => c ≠ '_')
  let p : Bool × List Char :=
    match t with
    | '-' :: r => (true, r)
    | '+' :: r => (false, r)
    | r => (false, r)
  let neg := p.1
  let r := p.2
  let low := r.map Char.toLower
  if isInfToken low then
    some (.special (if neg then "-Infinity" else "Infinity"))
  else if isNanToken low then
    some (.special (if neg then "-NaN" else "NaN"))
  else if isSNanToken low then
    some (.special (if neg then "-sNaN" else "sNaN"))
  else
    (parseFiniteMag r).map (fun m => .finite (if neg then -m else m))

/-! ## Decimal rounding and amount formatting -/

/-- Round to the nearest integer, ties to the even neighbour: the default
`ROUND_HALF_EVEN` mode of Python `Decimal.quantize`. -/
def roundHalfEven (q : ℚ) : ℤ :=
  let f := ⌊q⌋
  let r := q - (f : ℚ)
  if r < 1 / 2 then f
  else if 1 / 2 < r then f + 1
  else if f % 2 = 0 then f else f + 1

/-- `Invoice._get_dollars`: `amount.quantize(Decimal('.01'))` — round to
whole cents with the default half-even mode. -/
def getDollars (amount : ℚ) : ℚ :=
  (roundHalfEven (amount * 100) : ℚ) / 100

/-- Two-digit zero-padded rendering of a natural number. -/
def pad2 (n : Nat) : String :=
  pyRjust (toString n) 2 '0'

/-- `Invoice._format_amount`: quantize to cents, take the absolute value,
render as `units.cents`, drop the decimal point, left-pad with `0` to 15.
`str` of a non-negative two-place `Decimal` is exactly `units.cents`,
so dropping the point yields the digits of the units followed by the
two cent digits. -/
def formatAmount (amount : ℚ) : String :=
  let cents : Nat := (roundHalfEven (amount * 100)).natAbs
  pyRjust (toString (cents / 100) ++ pad2 (cents % 100)) 15 '0'

/-! ## Text normalizer (`Invoice._get_value` character cleanup)

`_get_value` applies a chain of `str.replace` calls whose target characters
are pairwise distinct and whose replacement characters are never themselves
targets of a later replace, so the chain acts independently on each character
and equals this single pass. -/

def normChar (c : Char) : List Char :=
  if c = ' ' ∨ c = '\n' ∨ c = '\r' then []
  else if c = '\t' ∨ c = '#' ∨ c = '&' ∨ c = '*' ∨ c = '_' then [' ']
  else if c = '’' then ['\'']
  else if c = '–' ∨ c = '—' then ['-']
  else [c]

def normStr (s : String) : String :=
  ⟨s.data.flatMap normChar⟩

/-- `Invoice._get_value`: look up a path (here: the already-extracted
`Option String`) and normalize it; an absent value passes through as `none`. -/
def normValue (v : Option String) : Option String :=
  v.map normStr

/-! ## Dates (`datetime.strptime('%m/%d/%Y')`, `+ timedelta(days=25)`, `%y%m%d`) -/

structure DateYMD where
  y : Nat
  m : Nat
  d : Nat
deriving DecidableEq

def isLeap (y : Nat) : Bool :=
  y % 4 = 0 && (y % 100 ≠ 0 || y % 400 = 0)

def daysInMonth (y m : Nat) : Nat :=
  if m = 2 then (if isLeap y then 29 else 28)
  else if m = 4 ∨ m = 6 ∨ m = 9 ∨ m = 11 then 30
  else 31

def nextDay (dt : DateYMD) : DateYMD :=
  if dt.d < daysInMonth dt.y dt.m then ⟨dt.y, dt.m, dt.d + 1⟩
  else if dt.m < 12 then ⟨dt.y, dt.m + 1, 1⟩
  else ⟨dt.y + 1, 1, 1⟩

/-- `date + timedelta(days=n)`. -/
def addDays (dt : DateYMD) (n : Nat) : DateYMD :=
  nextDay^[n] dt

/-- Split a character list on a separator character (the list analogue of
`str.split(sep)`): always at least one group, empty groups kept. -/
def splitOnChar (c : Char) : List Char → List (List Char)
  | [] => [[]]
  | a :: rest =>
    if a = c then [] :: splitOnChar c rest
    else
      match splitOnChar c rest with
      | [] => [[a]]
      | g :: gs => (a :: g) :: gs

/-- The CPython `strptime` `%d` field: one or two digits, or a blank
followed by a single non-zero digit (the space-padded day form). -/
def dayField (ds : List Char) : Bool :=
  (!ds.isEmpty && decide (ds.length ≤ 2) && ds.all Char.isDigit) ||
  (match ds with
   | [' ', c] => decide ('1' ≤ c) && decide (c ≤ '9')
   | _ => false)

/-- `Invoice._to_date`: `datetime.strptime(s, '%m/%d/%Y')`.  `%m` accepts
one or two digits, `%d` one or two digits or a space-padded digit, `%Y`
exactly four digits, and the parsed values must form a real calendar date
(month range, day range for the month, year at least `MINYEAR` = 1). -/
def pyStrptimeDate (s : String) : Option DateYMD :=
  match splitOnChar '/' s.data with
  | [ms, ds, ys] =>
    if ms ≠ [] ∧ ms.length ≤ 2 ∧ ms.all Char.isDigit ∧
       dayField ds = true ∧
       ys.length = 4 ∧ ys.all Char.isDigit then
      let m := digitsToNat ms
      let d := digitsToNat (ds.filter Char.isDigit)
      let y := digitsToNat ys
      if 1 ≤ m ∧ m ≤ 12 ∧ 1 ≤ d ∧ d ≤ daysInMonth y m ∧ 1 ≤ y then
        some ⟨y, m, d⟩
      else none
    else none
  | _ => none

/-- `Invoice._to_yymmdd`: `date.strftime('%y%m%d')`. -/
def toYYMMDD (dt : DateYMD) : String :=
  pad2 (dt.y % 100) ++ pad2 dt.m ++ pad2 dt.d

/-! ## Input model

One invoice XML element, restricted to exactly the paths the extractor
queries (`findtext` returns the element text or `None`; a missing
`invoice_line_list` / `fund_info_list` element is `none`). -/

structure FundXml where
  local_amount_sum : Option String
  external_id : Option String
  code : Option String
  name : Option String
deriving DecidableEq

structure LineXml where
  total_price : Option String
  line_type : Option String
  line_number : Option String
  note : Option String
  mms_record_id : Option String
  po_line_number : Option String
  reporting_code : Option String
  po_line_title : Option String
  fund_info_list : Option (List FundXml)
deriving DecidableEq

structure InvoiceXml where
  currency : Option String
  invoice_date : Option String
  invoice_number : Option String
  invoice_amount_sum : Option String
  unique_identifier : Option String
  vendor_financial_sys_code : Option String
  vendor_code : Option String
  invoice_line_list : Option (List LineXml)
deriving DecidableEq

/-! ## Extracted (pre-enrichment) records -/

structure RawFund where
  usd_amount : ℚ
  fau : Option String
  fund_code : Option String
  fund_name : Option String
deriving DecidableEq

structure RawLine where
  total_price : ℚ
  line_type : Option String
  line_number : Option String
  note : Option String
  mms_id : Option String
  po_line_number : Option String
  reporting_code : Option String
  title : Option String
  fund_info : List RawFund
deriving DecidableEq

/-! ## Enriched records (after `_add_line_data`)

`lbs_tax_code` duplicates the raw `reporting_code`
(`_get_lbs_tax_code` returns it unchanged) and `line_number` must have been
present for the sort key and the description, so both are plain strings
here.  `pac_line_number` is written by the Z21 emitter and read only inside
the same loop iteration, so it is passed as a parameter there instead of
being stored. -/

structure EFund where
  usd_amount : ℚ
  fau : String
  fund_code : Option String
  fund_name : Option String
  pac_fau : String
deriving DecidableEq

structure Line where
  total_price : ℚ
  line_type : Option String
  line_number : String
  note : Option String
  mms_id : Option String
  po_line_number : Option String
  title : Option String
  lbs_tax_code : String
  line_code : String
  pac_tax_code : String
  description : String
  fund_info : List EFund
  fund_count : Nat
  original_price : Option ℚ
deriving DecidableEq

/-- Error-propagating `List.mapM` for `Except`, written recursively so that
proofs can proceed by structural induction. -/
def mapE (g : α → Except String β) : List α → Except String (List β)
  | [] => .ok []
  | a :: as => do
    let b ← g a
    let bs ← mapE g as
    .ok (b :: bs)

/-! ## Extraction (`_get_invoice_data` and helpers) -/

/-- A value Python would use where `None` raises: `none` becomes the given
exception, `some` passes through. -/
def requireSome (msg : String) : Option α → Except String α
  | none => .error msg
  | some a => .ok a

/-- `Decimal(self._get_value(...))`: normalize, then parse.  `Decimal(None)`
raises `TypeError` and a string `Decimal` rejects raises `InvalidOperation`;
everything `Decimal` accepts — finite values and specials alike — succeeds.
Used for the invoice total, which is stored and never computed with
(`_check_totals`, its only reader, is never called). -/
def parseRequiredDecimal (v : Option String) : Except String PyDecimal :=
  match normValue v with
  | none => .error "TypeError: conversion from NoneType to Decimal"
  | some s =>
    match pyDecimal? s with
    | none => .error "decimal.InvalidOperation"
    | some d => .ok d

/-- `Decimal(self._get_value(...))` for the line and fund amounts, whose
values feed arithmetic and comparisons downstream.  Absent and
`Decimal`-rejected strings raise exactly as in the source.  Non-finite
amounts are modelled as a construction-time failure: in the source a `NaN`
line amount always signals `InvalidOperation` at the `amount < 0`
comparison of `_get_line_code` (and `sNaN` at the first comparison), so
construction fails there too, only later; an `Infinity` line amount, or a
non-finite fund amount, can in some configurations survive to output and is
outside this model — no theorem below quantifies over non-finite line or
fund amounts. -/
def parseRequiredFiniteDecimal (v : Option String) : Except String ℚ :=
  match normValue v with
  | none => .error "TypeError: conversion from NoneType to Decimal"
  | some s =>
    match pyDecimal? s with
    | none => .error "decimal.InvalidOperation"
    | some (.finite q) => .ok q
    | some (.special _) => .error "model boundary: non-finite amount"

/-- `self._to_date(self._get_value(...))`: `strptime(None, ...)` raises
`TypeError` and a malformed date string raises `ValueError`. -/
def parseRequiredDate (v : Option String) : Except String DateYMD :=
  match normValue v with
  | none => .error "TypeError: strptime() argument 1 must be str"
  | some s =>
    match pyStrptimeDate s with
    | none => .error "ValueError: time data does not match format"
    | some dt => .ok dt

/-- `Invoice._get_fund`: one `fund_info` element. -/
def getFundX (fx : FundXml) : Except String RawFund := do
  let amt ← parseRequiredFiniteDecimal fx.local_amount_sum
  .ok { usd_amount := amt
        fau := normValue fx.external_id
        fund_code := normValue fx.code
        fund_name := normValue fx.name }

/-- Sort key access for `sorted(funds, key=lambda fund: fund['fund_code'])`.
With at most one fund no comparison happens; with two or more, any `None`
key is compared against another key and raises `TypeError`.  Python `sorted`
is stable; `List.insertionSort` is stable, so they agree. -/
def sortFunds (fs : List RawFund) : Except String (List RawFund) :=
  if fs.length ≤ 1 then .ok fs
  else if fs.any (fun f => f.fund_code = none) then
    .error "TypeError: unorderable NoneType key"
  else .ok (fs.insertionSort (fun a b => a.fund_code.getD "" ≤ b.fund_code.getD ""))

/-- `Invoice._get_funds`: an absent `fund_info_list` element is `None` and an
empty one is falsy, so both give an empty fund list. -/
def getFundsX (fxs : Option (List FundXml)) : Except String (List RawFund) := do
  let rfs ← mapE getFundX (fxs.getD [])
  sortFunds rfs

/-- `Invoice._get_invoice_line`. -/
def getInvoiceLineX (lx : LineXml) : Except String RawLine := do
  let tp ← parseRequiredFiniteDecimal lx.total_price
  let funds ← getFundsX lx.fund_info_list
  .ok { total_price := tp
        line_type := normValue lx.line_type
        line_number := normValue lx.line_number
        note := normValue lx.note
        mms_id := normValue lx.mms_record_id
        po_line_number := normValue lx.po_line_number
        reporting_code := normValue lx.reporting_code
        title := normValue lx.po_line_title
        fund_info := funds }

/-- The sort key `int(line['line_number'])` paired with its line
(`int(None)` and non-numeric strings raise). -/
def lineSortKey (l : RawLine) : Except String (Int × RawLine) :=
  match l.line_number with
  | none => .error "TypeError: int() argument must be a string"
  | some s =>
    match pyInt? s with
    | none => .error "ValueError: invalid literal for int()"
    | some k => .ok (k, l)

/-- `sorted(invoice_lines, key=lambda line: int(line['line_number']))`:
the key function runs once per line, then a stable sort by the integer key
(Python `sorted` is stable; `List.insertionSort` is stable, so they agree). -/
def sortLines (ls : List RawLine) : Except String (List RawLine) := do
  let keyed ← mapE lineSortKey ls
  .ok ((keyed.insertionSort (fun a b => a.1 ≤ b.1)).map (·.2))

/-- Header-level extracted data (`_get_invoice_data` result). -/
structure Extracted where
  currency : Option String
  invoice_date : DateYMD
  invoice_number : Option String
  total_amount_alma : PyDecimal
  unique_identifier : Option String
  vck : Option String
  vendor_code : Option String
  invoice_lines : List RawLine
deriving DecidableEq

/-- `Invoice._get_invoice_data`, in the source order of the dictionary
assignments (which fixes which failure is raised first; the plain-string
fields cannot fail and are filled directly into the record). -/
def extractData (x : InvoiceXml) : Except String Extracted := do
  let invoice_date ← parseRequiredDate x.invoice_date
  let total_amount_alma ← parseRequiredDecimal x.invoice_amount_sum
  let lxs ← requireSome "TypeError: NoneType object is not iterable" x.invoice_line_list
  let raws ← mapE getInvoiceLineX lxs
  let lines ← sortLines raws
  .ok { currency := normValue x.currency
        invoice_date
        invoice_number := normValue x.invoice_number
        total_amount_alma
        unique_identifier := normValue x.unique_identifier
        vck := normValue x.vendor_financial_sys_code
        vendor_code := normValue x.vendor_code
        invoice_lines := lines }

/-- `Invoice._remove_unwanted_lines`: drop zero-amount lines. -/
def removeUnwantedLines (ls : List RawLine) : List RawLine :=
  ls.filter (fun l => l.total_price ≠ 0)

/-! ## Line enrichment (`_add_line_data` and helpers) -/

/-- `Invoice._is_discount_line`. -/
def isDiscountLine (line_type : Option String) (total_price : ℚ) : Bool :=
  line_type = some "DISCOUNT" ∧ total_price > 0

/-- `Invoice._get_line_code`.  A `None` reporting code reaches a slice of
`None` (raising `TypeError`) whenever the amount is non-negative: either in
the SHIPMENT conjunction or, failing its first conjunct, in the `-FT` check. -/
def getLineCode (total_price : ℚ) (line_type : Option String)
    (lbs_tax_code : Option String) : Except String String :=
  if total_price < 0 then .ok (pyLjust "CR" 3 ' ')
  else match lbs_tax_code with
    | none => .error "TypeError: NoneType is not subscriptable"
    | some t =>
      let code :=
        if line_type = some "SHIPMENT" ∧ pySlice t 2 5 = "-SH" then "ESH"
        else if pySlice t 2 5 = "-FT" then "FT"
        else if t = "EX-PR" then "SVS"
        else if pySlice t 2 5 = "-PR" ∧ t ≠ "EX-PR" then "MAT"
        else if t = "TA" ∨ t = "TB" ∨ t = "TC" ∨ t = "TD" ∨ t = "TE" ∨
                t = "TF" ∨ t = "TG" ∨ t = "TH" ∨ t = "TI" then "CR"
        else "DR"
      .ok (pyLjust code 3 ' ')

/-- `Invoice._get_pac_tax_code` (on a present reporting code; the `None`
case raises before reaching here).  The comparison with the unpadded
string `FT` is kept exactly as in the source: the stored line codes are
already padded to three characters, so that branch matches the source
behaviour, not the comment above it. -/
def getPacTaxCode (lbs_tax_code : String) (line_code : String) : String :=
  if pySlice lbs_tax_code 0 2 = "EX" ∨ line_code = "FT" then "E "
  else if pySlice lbs_tax_code 0 2 = "VR" then "TM"
  else if line_code = "ESH" then "E "
  else if line_code = "TSH" then "SM"
  else if line_code = "CR " then "E "
  else "SM"

/-- `Invoice._get_description`: `unique_identifier : line_number : note`,
truncated to 55 and right-padded to 55.  `str(None)` is the text `None`. -/
def getDescription (uid : Option String) (line_number : Option String)
    (note : Option String) : Except String String :=
  match uid with
  | none => .error "TypeError: unsupported operand for NoneType"
  | some u => match line_number with
    | none => .error "TypeError: can only concatenate str to str"
    | some ln =>
      .ok (pyLjust (pyTake (u ++ " : " ++ ln ++ " : " ++ note.getD "None") 55) 55 ' ')

/-- `Invoice._get_pac_fau`: positional reslicing of the FAU, with the
project segment padded to 6 and a source segment cut from the parent
invoice unique identifier. -/
def getPacFau (uid : Option String) (fau : String) : Except String String :=
  match uid with
  | none => .error "TypeError: NoneType is not subscriptable"
  | some u =>
    let loc := pySlice fau 0 1
    let account := pySlice fau 2 8
    let cc := pySlice fau 9 11
    let fund := pySlice fau 12 17
    let sub := pySlice fau 18 20
    let obj := pySlice fau 21 25
    let project := pyLjust (pySlice fau 26 32) 6 ' '
    let source := pySlice u 3 9
    .ok (loc ++ account ++ cc ++ fund ++ project ++ sub ++ obj ++ source)

/-- Setting `fund['pac_fau']` for one fund of a line: a `None` FAU reaches a
slice of `None` inside `_get_pac_fau` and raises. -/
def enrichFund (uid : Option String) (f : RawFund) : Except String EFund := do
  let fa ← requireSome "TypeError: NoneType is not subscriptable" f.fau
  let pf ← getPacFau uid fa
  .ok { usd_amount := f.usd_amount, fau := fa, fund_code := f.fund_code,
        fund_name := f.fund_name, pac_fau := pf }

/-- `Invoice._add_line_data` on one line: discount sign flip, derived codes,
description, fund count and per-fund PAC FAU. -/
def addLineData (uid : Option String) (r : RawLine) : Except String Line := do
  let price := if isDiscountLine r.line_type r.total_price then 0 - r.total_price
               else r.total_price
  let line_code ← getLineCode price r.line_type r.reporting_code
  let lbs ← requireSome "TypeError: NoneType is not subscriptable" r.reporting_code
  let pac_tax_code := getPacTaxCode lbs line_code
  let desc ← getDescription uid r.line_number r.note
  let ln ← requireSome "TypeError: can only concatenate str to str" r.line_number
  let funds ← mapE (enrichFund uid) r.fund_info
  .ok { total_price := price
        line_type := r.line_type
        line_number := ln
        note := r.note
        mms_id := r.mms_id
        po_line_number := r.po_line_number
        title := r.title
        lbs_tax_code := lbs
        line_code := line_code
        pac_tax_code := pac_tax_code
        description := desc
        fund_info := funds
        fund_count := r.fund_info.length
        original_price := none }

/-! ## Shipping split (`_split_esh_line`, `_make_tsh_lines`) -/

/-- `Invoice._split_esh_line`: returns the mutated ESH line (80% of the
original amount) and the new TSH sibling (20%).  The Python code mutates
`esh_line` in place and returns the TSH copy; here both results are
returned. -/
def splitEshLine (esh : Line) : Line × Line :=
  let original_price := esh.total_price
  let eshOut := { esh with
    original_price := some original_price
    total_price := getDollars (original_price * (0.80 : ℚ))
    line_number := esh.line_number ++ "-ESH" }
  let tshOut₀ := { esh with
    original_price := some original_price
    total_price := getDollars (original_price * (0.20 : ℚ))
    line_code := "TSH"
    line_number := esh.line_number ++ "-TSH" }
  let tshOut := { tshOut₀ with
    pac_tax_code := getPacTaxCode tshOut₀.lbs_tax_code tshOut₀.line_code }
  (eshOut, tshOut)

/-- The in-place mutation `_split_esh_line` performs on an ESH list entry. -/
def eshFix (l : Line) : Line :=
  if l.line_code = "ESH" then (splitEshLine l).1 else l

/-- `Invoice._make_tsh_lines`: each ESH line is mutated in place (80% half)
and its TSH sibling is collected in a temporary list which is appended to the
end of the invoice line list. -/
def makeTshLines (lines : List Line) : List Line :=
  lines.map eshFix ++
    (lines.filter (fun l => l.line_code = "ESH")).map (fun l => (splitEshLine l).2)

/-! ## Totals (`_calculate_totals`, `_get_invoice_type`) -/

structure Totals where
  state_taxable : ℚ
  vendor_taxable : ℚ
  non_taxable : ℚ
  state_tax : ℚ
  vendor_tax : ℚ
deriving DecidableEq

/-- One iteration of the `_calculate_totals` loop. -/
def totalsStep (t : Totals) (l : Line) : Totals :=
  let a := l.total_price
  if l.line_type = some "BA" then
    if pySlice l.lbs_tax_code 0 2 = "VR" then
      { t with vendor_tax := t.vendor_tax + a }
    else if l.line_code = "CR " ∧ pySlice l.lbs_tax_code 0 1 = "T" then
      { t with vendor_tax := t.vendor_tax + a, non_taxable := t.non_taxable - a }
    else if pySlice l.lbs_tax_code 0 2 = "TM" ∨ pySlice l.lbs_tax_code 0 2 = "TS" then
      { t with state_tax := t.state_tax + a }
    else
      { t with non_taxable := t.non_taxable + a }
  else
    if l.pac_tax_code = "SM" then { t with state_taxable := t.state_taxable + a }
    else if l.pac_tax_code = "TM" then { t with vendor_taxable := t.vendor_taxable + a }
    else { t with non_taxable := t.non_taxable + a }

def totalsOf (lines : List Line) : Totals :=
  lines.foldl totalsStep ⟨0, 0, 0, 0, 0⟩

/-- `Invoice._calculate_discount_total`. -/
def calcDiscountTotal : ℚ := 0

/-- The PAC invoice total set by `_calculate_totals`: state tax is excluded. -/
def totalAmountPac (lines : List Line) : ℚ :=
  (totalsOf lines).state_taxable + (totalsOf lines).vendor_taxable +
    (totalsOf lines).non_taxable + (totalsOf lines).vendor_tax

/-- `Invoice._get_invoice_type`. -/
def getInvoiceType (total_amount_pac : ℚ) : String :=
  if total_amount_pac ≥ 0 then "D" else "C"

/-! ## Credit special-tax FAU rewrite (`_update_credit_faus`,
`_get_special_tax_fau`) -/

/-- `Invoice._get_special_tax_fau`: account keyed by the LBS tax code
(default `115528`), assembled into the fixed special FAU. -/
def specialTaxFau (lbs_tax_code : String) : String :=
  let account :=
    if lbs_tax_code = "TA" then "115523"
    else if lbs_tax_code = "TB" then "115522"
    else if lbs_tax_code = "TC" then "115524"
    else if lbs_tax_code = "TD" then "115521"
    else if lbs_tax_code = "TE" then "115529"
    else if lbs_tax_code = "TF" then "115528"
    else if lbs_tax_code = "TG" then "115518"
    else if lbs_tax_code = "TH" then "115519"
    else if lbs_tax_code = "TI" then "115525"
    else "115528"
  "4 " ++ account ++ "    18888        "

/-- The `_update_credit_faus` loop body for one line: tax (`BA`) credit
(`CR `) lines have their first fund allocation rewritten; `fund_info[0]` on
an empty list raises `IndexError`. -/
def updateCreditFau (uid : Option String) (l : Line) : Except String Line :=
  if l.line_code = "CR " ∧ l.line_type = some "BA" then
    match l.fund_info, getPacFau uid (specialTaxFau l.lbs_tax_code) with
    | [], _ => .error "IndexError: list index out of range"
    | _ :: _, .error e => .error e
    | f :: fs, .ok pf =>
      .ok { l with fund_info :=
              { f with fau := specialTaxFau l.lbs_tax_code, pac_fau := pf } :: fs }
  else .ok l

/-- `Invoice._update_credit_faus`: applies only to Debit invoices. -/
def updateCreditFaus (uid : Option String) (pac_invoice_type : String)
    (lines : List Line) : Except String (List Line) :=
  if pac_invoice_type = "D" then mapE (updateCreditFau uid) lines
  else .ok lines

/-! ## Header field formatting -/

/-- `Invoice._format_invoice_number`: trim to 23, right-pad to 23 (or `None`
when the number is absent — the Python method then returns `None`). -/
def formatInvoiceNumber (invoice_number : Option String) : Option String :=
  invoice_number.map (fun s => pyLjust (pyTake s 23) 23 ' ')

/-- `Invoice._format_vck`. -/
def formatVck (vck : Option String) : String :=
  match vck with
  | some v => pyTake v 9
  | none => "NO VCK   "

/-- `Invoice._get_due_date`: 25 days after the invoice date. -/
def getDueDate (invoice_date : DateYMD) : DateYMD :=
  addDays invoice_date 25

/-! ## Card emitter (`_get_z20_lines` … `_get_pac_lines`)

String concatenation with the `None` returned by `_format_invoice_number`
for an absent invoice number raises `TypeError`, hence the `Except` results
where `pac_invoice_number` is consumed. -/

/-- `Invoice._get_z20_line1` (`batch_number = '999895'`). -/
def getZ20Line1 (pac_vck : String) (pac_invoice_number : Option String)
    (invoice_date : DateYMD) : Except String String :=
  match pac_invoice_number with
  | none => .error "TypeError: can only concatenate str to str"
  | some pin =>
    .ok ("Z200101 A" ++ pac_vck ++ " " ++ pin ++ toYYMMDD invoice_date ++
         "99" ++ "999895" ++ getBlanks 24)

/-- `Invoice._get_z20_line2`. -/
def getZ20Line2 (total_amount_pac : ℚ) (pac_invoice_type : String)
    (total_vendor_tax : ℚ) (total_discount : ℚ) (pac_due_date : DateYMD) : String :=
  "Z200102 " ++ formatAmount total_amount_pac ++ pac_invoice_type ++
    formatAmount total_vendor_tax ++ "99" ++ formatAmount total_discount ++
    toYYMMDD pac_due_date ++ getBlanks 18

/-- `Invoice._get_z20_line3`. -/
def getZ20Line3 : String :=
  "Z200103    00    UCLANONE        CA" ++ getBlanks 45

/-- `Invoice._needs_z21_line_item`: every line except plain regular-tax
(`BA` with `TM`/`TS`/`VR` reporting code) gets a Z21 card. -/
def needsZ21LineItem (l : Line) : Bool :=
  ¬(l.line_type = some "BA" ∧
    (pySlice l.lbs_tax_code 0 2 = "TM" ∨ pySlice l.lbs_tax_code 0 2 = "TS" ∨
     pySlice l.lbs_tax_code 0 2 = "VR"))

/-- `Invoice._get_z21_line1` (`n` is the freshly assigned `pac_line_number`). -/
def getZ21Line1 (pac_vck : String) (pac_invoice_number : Option String)
    (n : Nat) (l : Line) : Except String String :=
  match pac_invoice_number with
  | none => .error "TypeError: can only concatenate str to str"
  | some pin =>
    .ok ("Z210101 A" ++ pac_vck ++ " " ++ pin ++ pyRjust (toString n) 4 '0' ++
         l.line_code ++ getBlanks 31)

/-- `Invoice._get_z21_line2`. -/
def getZ21Line2 (l : Line) : String :=
  "Z210102 " ++ formatAmount l.total_price ++ l.description ++ l.pac_tax_code

/-- The account-less third Z21 line used when the fund count is not one. -/
def z21Line3Blank (line_code : String) : String :=
  "Z210103 " ++ getBlanks 32 ++ getBlanks 26 ++ "E" ++ getBlanks 4 ++
    line_code ++ getBlanks 6

/-- `Invoice._get_z21_line3`: embedded FAU only when the line has exactly
one fund (`fund_info[0]` raises `IndexError` if the list is empty). -/
def getZ21Line3 (l : Line) : Except String String :=
  if l.fund_count = 1 then
    match l.fund_info with
    | [] => .error "IndexError: list index out of range"
    | f :: _ =>
      .ok ("Z210103 " ++ f.pac_fau ++ getBlanks 26 ++ "E" ++ getBlanks 4 ++
           l.line_code ++ getBlanks 6)
  else .ok (z21Line3Blank l.line_code)

/-- `Invoice._get_z41_lines`: one continuation card (3 lines) per fund. -/
def getZ41Lines (pac_vck : String) (pac_invoice_number : Option String)
    (n : Nat) (l : Line) : Except String (List String) :=
  match pac_invoice_number with
  | none => .error "TypeError: can only concatenate str to str"
  | some pin =>
    .ok (l.fund_info.flatMap (fun f =>
      ["Z410101 A" ++ pac_vck ++ " " ++ pin ++ getBlanks 30 ++
         pyRjust (toString n) 4 '0' ++ getBlanks 4,
       "Z410102 " ++ getBlanks 23 ++ formatAmount f.usd_amount ++ getBlanks 34,
       "Z410103 " ++ f.pac_fau ++ getBlanks 40]))

/-- The Z41 cards appended to a Z21 block: only for multi-fund lines. -/
def z41IfMulti (pac_vck : String) (pac_invoice_number : Option String)
    (n : Nat) (l : Line) : Except String (List String) :=
  if l.fund_count > 1 then getZ41Lines pac_vck pac_invoice_number n l
  else .ok []

/-- The Z21 lines emitted for one invoice line that needs a card. -/
def z21Block (pac_vck : String) (pac_invoice_number : Option String)
    (n : Nat) (l : Line) : Except String (List String) := do
  let l1 ← getZ21Line1 pac_vck pac_invoice_number n l
  let l2 := getZ21Line2 l
  let l3 ← getZ21Line3 l
  let z41 ← z41IfMulti pac_vck pac_invoice_number n l
  .ok ([l1, l2, l3] ++ z41)

/-- The `_get_z21_lines` loop: `n` is the running `pac_line_number`,
incremented only for lines that get a card. -/
def z21Go (pac_vck : String) (pac_invoice_number : Option String) :
    Nat → List Line → Except String (List String)
  | _, [] => .ok []
  | n, l :: ls =>
    if needsZ21LineItem l then do
      let b ← z21Block pac_vck pac_invoice_number (n + 1) l
      let rest ← z21Go pac_vck pac_invoice_number (n + 1) ls
      .ok (b ++ rest)
    else z21Go pac_vck pac_invoice_number n ls

/-- `Invoice._get_z21_lines`. -/
def getZ21Lines (pac_vck : String) (pac_invoice_number : Option String)
    (lines : List Line) : Except String (List String) :=
  z21Go pac_vck pac_invoice_number 0 lines

/-- `Invoice._get_z25_lines`. -/
def getZ25Lines (pac_vck : String) (pac_invoice_number : Option String) :
    Except String (List String) :=
  match pac_invoice_number with
  | none => .error "TypeError: can only concatenate str to str"
  | some pin =>
    .ok ["Z250101 A" ++ pac_vck ++ " " ++ pin ++ getBlanks 6 ++ "Y" ++ getBlanks 31]

/-! ## The assembled invoice (`Invoice.__init__`) -/

/-- The invoice data dictionary as it stands after `__init__` finishes. -/
structure InvoiceData where
  currency : Option String
  invoice_date : DateYMD
  invoice_number : Option String
  total_amount_alma : PyDecimal
  unique_identifier : Option String
  vck : Option String
  vendor_code : Option String
  invoice_lines : List Line
  pac_invoice_number : Option String
  pac_vck : String
  pac_due_date : DateYMD
  total_state_taxable : ℚ
  total_vendor_taxable : ℚ
  total_non_taxable : ℚ
  total_state_tax : ℚ
  total_vendor_tax : ℚ
  total_discount : ℚ
  total_amount_pac : ℚ
  pac_invoice_type : String
  pac_lines : List String
  validation_message : Option String
deriving DecidableEq

/-- `_add_other_data` + `_get_pac_lines` on extracted data: everything
`Invoice.__init__` does after `_get_invoice_data` and
`_remove_unwanted_lines`. -/
def assembleInvoice (e : Extracted) : Except String InvoiceData := do
  let pac_invoice_number := formatInvoiceNumber e.invoice_number
  let pac_vck := formatVck e.vck
  let pac_due_date := getDueDate e.invoice_date
  let lines1 ← mapE (addLineData e.unique_identifier) e.invoice_lines
  let lines2 := makeTshLines lines1
  let T := totalsOf lines2
  let total_amount_pac := totalAmountPac lines2
  let pac_invoice_type := getInvoiceType total_amount_pac
  let lines3 ← updateCreditFaus e.unique_identifier pac_invoice_type lines2
  let z20a ← getZ20Line1 pac_vck pac_invoice_number e.invoice_date
  let z20b := getZ20Line2 total_amount_pac pac_invoice_type T.vendor_tax
                calcDiscountTotal pac_due_date
  let z21s ← getZ21Lines pac_vck pac_invoice_number lines3
  let z25s ← getZ25Lines pac_vck pac_invoice_number
  .ok { currency := e.currency
        invoice_date := e.invoice_date
        invoice_number := e.invoice_number
        total_amount_alma := e.total_amount_alma
        unique_identifier := e.unique_identifier
        vck := e.vck
        vendor_code := e.vendor_code
        invoice_lines := lines3
        pac_invoice_number, pac_vck, pac_due_date
        total_state_taxable := T.state_taxable
        total_vendor_taxable := T.vendor_taxable
        total_non_taxable := T.non_taxable
        total_state_tax := T.state_tax
        total_vendor_tax := T.vendor_tax
        total_discount := calcDiscountTotal
        total_amount_pac, pac_invoice_type
        pac_lines := [z20a, z20b, getZ20Line3] ++ z21s ++ z25s
        validation_message := none }

/-- `Invoice.__init__`: extraction, zero-line removal, enrichment, rendering.
Any Python exception on the way surfaces as `.error`; the caller catches it
per invoice. -/
def buildInvoice (x : InvoiceXml) : Except String InvoiceData := do
  let e ← extractData x
  assembleInvoice { e with invoice_lines := removeUnwantedLines e.invoice_lines }

/-! ## Serialization (`get_pac_format`) -/

/-- `Invoice.get_pac_format`: newline-join the card lines, append one final
newline for the whole invoice block, upper-case everything. -/
def getPacFormat (d : InvoiceData) : String :=
  pyUpper (pyJoinNl d.pac_lines ++ "\n")

/-! ## Validator (`is_valid`) -/

def unwantedPrefixes : List String :=
  ["ADJUST", "BINDERY", "FOREIGN", "HOLD", "PACKAGE", "RECHARGE",
   "REFUND", "REIMBURSE", "RUSH", "SPECIAL", "UCLARCHG", "WIRE"]

/-- The procard regex `^5[0-9]{3}[A-Z]{3}[0-9]` under `re.search`: anchored
at the start, fixed width, no backtracking choice. -/
def procardMatch (s : String) : Bool :=
  match s.data with
  | c0 :: c1 :: c2 :: c3 :: c4 :: c5 :: c6 :: c7 :: _ =>
    c0 = '5' && c1.isDigit && c2.isDigit && c3.isDigit &&
    ('A' ≤ c4 && c4 ≤ 'Z') && ('A' ≤ c5 && c5 ≤ 'Z') && ('A' ≤ c6 && c6 ≤ 'Z') &&
    c7.isDigit
  | _ => false

/-- One iteration of the per-line loop in `is_valid`: the length check runs
first, the ASCII check second, each overwriting `(valid, message)` when it
fires. -/
def validStep (vm : Bool × String) (line : String) : Bool × String :=
  let vm1 := if line.length ≠ 80 then (false, "Bad length: " ++ line) else vm
  if ¬ pyIsAscii line then (false, "Not ASCII: " ++ line) else vm1

/-- `Invoice.is_valid` on the fields it reads, producing the final
`(valid, message)` pair (the stored diagnostic is
`invoice_number ++ " : " ++ message`).  Each matching rule overwrites the
pair; the prefix loop stops at the first matching prefix. -/
def isValidOn (invoice_number : String) (vendor_code vck : Option String)
    (pac_lines : List String) : Bool × String :=
  let vm : Bool × String := (true, "OK")
  let vm := if vendor_code = some "LBS" then (false, "LBS Invoice")
            else if vck = none then (false, "No VCK")
            else vm
  let vm := match unwantedPrefixes.find? (fun p => pyStartsWith invoice_number p) with
    | some p => (false, "Unwanted prefix: " ++ p)
    | none => vm
  let vm := if procardMatch invoice_number then (false, "Unwanted Procard") else vm
  pac_lines.foldl validStep vm

/-- The diagnostic string `is_valid` records in the data dictionary. -/
def validationMessageOn (invoice_number : String) (vendor_code vck : Option String)
    (pac_lines : List String) : String :=
  invoice_number ++ " : " ++ (isValidOn invoice_number vendor_code vck pac_lines).2

/-- `Invoice.is_valid` on a built invoice: returns the boolean and the
invoice with `validation_message` recorded; an absent invoice number would
reach `None.startswith` in the prefix loop and raise. -/
def runIsValid (d : InvoiceData) : Except String (Bool × InvoiceData) :=
  match d.invoice_number with
  | none => .error "AttributeError: NoneType has no attribute startswith"
  | some n =>
    let msg := validationMessageOn n d.vendor_code d.vck d.pac_lines
    .ok ((isValidOn n d.vendor_code d.vck d.pac_lines).1,
         { d with validation_message := some msg })

/-! ## Specification-side definitions used to state the claims -/

/-- All reasons a single rendered line triggers, in check order (length
check before ASCII check). -/
def lineReasons (line : String) : List String :=
  (if line.length ≠ 80 then ["Bad length: " ++ line] else []) ++
  (if ¬ pyIsAscii line then ["Not ASCII: " ++ line] else [])

/-- All header-level rejection reasons, in rule order: the vendor-code and
absent-VCK rules are mutually exclusive (`if`/`elif`), then the first
matching unwanted prefix, then the procard pattern. -/
def headerReasons (invoice_number : String) (vendor_code vck : Option String) :
    List String :=
  (if vendor_code = some "LBS" then ["LBS Invoice"]
   else if vck = none then ["No VCK"] else []) ++
  (match unwantedPrefixes.find? (fun p => pyStartsWith invoice_number p) with
   | some p => ["Unwanted prefix: " ++ p]
   | none => []) ++
  (if procardMatch invoice_number then ["Unwanted Procard"] else [])

/-- Every rejection reason an invoice triggers, in evaluation order. -/
def allReasons (invoice_number : String) (vendor_code vck : Option String)
    (pac_lines : List String) : List String :=
  headerReasons invoice_number vendor_code vck ++ pac_lines.flatMap lineReasons

/-- Overwriting a `(valid, message)` pair with a list of firing reasons, one
after the other — the shape of every rule block in `is_valid`. -/
def overwriteAll (vm : Bool × String) (rs : List String) : Bool × String :=
  rs.foldl (fun _ r => (false, r)) vm

/-- The last element of a reason list, or `OK` when no rule fired. -/
def lastReason : List String → String
  | [] => "OK"
  | [r] => r
  | _ :: r :: rs => lastReason (r :: rs)

/-- The per-line contribution to the state-taxable bucket of
`_calculate_totals` (the classification table of the spec, one bucket per
function). -/
def stContrib (l : Line) : ℚ :=
  if l.line_type = some "BA" then 0
  else if l.pac_tax_code = "SM" then l.total_price else 0

/-- Per-line contribution to the vendor-taxable bucket. -/
def vtContrib (l : Line) : ℚ :=
  if l.line_type = some "BA" then 0
  else if l.pac_tax_code = "SM" then 0
  else if l.pac_tax_code = "TM" then l.total_price else 0

/-- Per-line contribution to the non-taxable bucket. -/
def ntContrib (l : Line) : ℚ :=
  if l.line_type = some "BA" then
    (if pySlice l.lbs_tax_code 0 2 = "VR" then 0
     else if l.line_code = "CR " ∧ pySlice l.lbs_tax_code 0 1 = "T" then -l.total_price
     else if pySlice l.lbs_tax_code 0 2 = "TM" ∨ pySlice l.lbs_tax_code 0 2 = "TS" then 0
     else l.total_price)
  else
    (if l.pac_tax_code = "SM" then 0
     else if l.pac_tax_code = "TM" then 0
     else l.total_price)

/-- Per-line contribution to the state-tax bucket. -/
def staxContrib (l : Line) : ℚ :=
  if l.line_type = some "BA" then
    (if pySlice l.lbs_tax_code 0 2 = "VR" then 0
     else if l.line_code = "CR " ∧ pySlice l.lbs_tax_code 0 1 = "T" then 0
     else if pySlice l.lbs_tax_code 0 2 = "TM" ∨ pySlice l.lbs_tax_code 0 2 = "TS" then l.total_price
     else 0)
  else 0

/-- Per-line contribution to the vendor-tax bucket. -/
def vtaxContrib (l : Line) : ℚ :=
  if l.line_type = some "BA" then
    (if pySlice l.lbs_tax_code 0 2 = "VR" then l.total_price
     else if l.line_code = "CR " ∧ pySlice l.lbs_tax_code 0 1 = "T" then l.total_price
     else 0)
  else 0

/-- The numeric sequence component of a (possibly suffixed) line number:
the leading digit run, as used by the extraction sort before any
`-ESH`/`-TSH` suffix exists. -/
def lineSeq (l : Line) : Nat :=
  digitsToNat (l.line_number.data.takeWhile Char.isDigit)

/-- The integer sort key of an extracted line (defined exactly when the
extraction sort succeeded). -/
def seqKeyRaw (l : RawLine) : Int :=
  ((l.line_number.bind pyInt?).getD 0)

/-- Right-fold concatenation of strings (spec-side notion of
`concatenation of the card lines`). -/
def joinAll (L : List String) : String :=
  L.foldr (· ++ ·) ""

/-! ## Concrete example data for witnesses and counterexamples -/

/-- An 80-character, ASCII-only card line. -/
def exLine80 : String :=
  "Z200103    00    UCLANONE        CA                                             "

/-- An enriched shipping line (line code `ESH`). -/
def exEshLine : Line :=
  { total_price := 10, line_type := some "SHIPMENT", line_number := "1"
    note := none, mms_id := none, po_line_number := none, title := none
    lbs_tax_code := "EX-SH", line_code := "ESH", pac_tax_code := "E "
    description := "D", fund_info := [], fund_count := 0, original_price := none }

/-- An enriched special-tax credit line (`CR `, `BA`, reporting code `TA`)
with one fund allocation, before the credit-FAU rewrite. -/
def exCrLine : Line :=
  { total_price := -7, line_type := some "BA", line_number := "1"
    note := none, mms_id := none, po_line_number := none, title := none
    lbs_tax_code := "TA", line_code := "CR ", pac_tax_code := "E "
    description := "D", fund_info := [⟨-7, "OLDFAU", some "F", none, "OLDPAC"⟩]
    fund_count := 1, original_price := none }

/-- An enriched debit line with no fund allocations. -/
def exNoFundLine : Line :=
  { total_price := 5, line_type := some "REGULAR", line_number := "2"
    note := none, mms_id := none, po_line_number := none, title := none
    lbs_tax_code := "EX", line_code := "DR ", pac_tax_code := "SM"
    description := "D", fund_info := [], fund_count := 0, original_price := none }

/-- An extracted raw line with sequence number 1. -/
def exRaw1 : RawLine :=
  ⟨10, some "SHIPMENT", some "1", none, none, none, some "EX-SH", none, []⟩

/-- An extracted raw line with sequence number 2. -/
def exRaw2 : RawLine :=
  ⟨5, some "REGULAR", some "2", none, none, none, some "EX", none, []⟩

/-- XML of a shipping line (sequence number 1) that the enricher codes `ESH`. -/
def eshLineXml : LineXml :=
  ⟨some "10.00", some "SHIPMENT", some "1", none, none, none, some "EX-SH", none, none⟩

/-- XML of a plain line with sequence number 2. -/
def plainLineXml : LineXml :=
  ⟨some "5.00", some "REGULAR", some "2", none, none, none, some "EX", none, none⟩

/-- An invoice whose shipping line 1 precedes line 2: after the split its
TSH sibling lands at the end of the list, behind line 2. -/
def cex7Xml : InvoiceXml :=
  ⟨some "USD", some "06/15/2024", some "INV0002", some "15.00",
   some "UID1234567", some "ABC1234567", some "VEND", some [eshLineXml, plainLineXml]⟩

/-- A small built invoice record used to exercise serialization. -/
def exData9 : InvoiceData :=
  { currency := none, invoice_date := ⟨2024, 6, 15⟩, invoice_number := some "X"
    total_amount_alma := .finite 0, unique_identifier := none, vck := none
    vendor_code := none, invoice_lines := [], pac_invoice_number := none
    pac_vck := "V", pac_due_date := ⟨2024, 7, 10⟩
    total_state_taxable := 0, total_vendor_taxable := 0, total_non_taxable := 0
    total_state_tax := 0, total_vendor_tax := 0, total_discount := 0
    total_amount_pac := 0, pac_invoice_type := "D"
    pac_lines := ["ab", "cd"], validation_message := none }

/-! # Theorems -/

/-! ## Validator lemmas -/

theorem validStep_fst_of_false (vm : Bool × String) (line : String) (h : vm.1 = false) :
    (validStep vm line).1 = false := by
  unfold validStep
  by_cases h1 : line.length = 80 <;> by_cases h2 : pyIsAscii line <;> simp [h1, h2, h]

theorem foldl_validStep_false (L : List String) (vm : Bool × String) (h : vm.1 = false) :
    (L.foldl validStep vm).1 = false := by
  induction L generalizing vm with
  | nil => exact h
  | cons l L ih => exact ih _ (validStep_fst_of_false vm l h)

theorem validStep_fst_true_iff (vm : Bool × String) (line : String) :
    (validStep vm line).1 = true ↔
      vm.1 = true ∧ line.length = 80 ∧ pyIsAscii line = true := by
  unfold validStep
  by_cases h1 : line.length = 80 <;> by_cases h2 : pyIsAscii line <;> simp [h1, h2]

theorem foldl_validStep_true (L : List String) (vm : Bool × String)
    (h : (L.foldl validStep vm).1 = true) :
    vm.1 = true ∧ ∀ l ∈ L, l.length = 80 ∧ pyIsAscii l = true := by
  induction L generalizing vm with
  | nil => exact ⟨h, by simp⟩
  | cons l L ih =>
    obtain ⟨h1, h2⟩ := ih _ h
    obtain ⟨hv, hl, ha⟩ := (validStep_fst_true_iff vm l).mp h1
    refine ⟨hv, ?_⟩
    intro x hx
    rcases List.mem_cons.mp hx with rfl | hx
    · exact ⟨hl, ha⟩
    · exact h2 x hx

theorem validStep_fst_of_badlen (vm : Bool × String) (line : String)
    (h : line.length ≠ 80) : (validStep vm line).1 = false := by
  unfold validStep
  by_cases h2 : pyIsAscii line <;> simp [h, h2]

theorem foldl_validStep_badmem (L : List String) (vm : Bool × String) (line : String)
    (h : line.length ≠ 80) : line ∈ L → (L.foldl validStep vm).1 = false := by
  induction L generalizing vm with
  | nil => intro hm; cases hm
  | cons a L ih =>
    intro hm
    rcases List.mem_cons.mp hm with rfl | hm2
    · exact foldl_validStep_false L _ (validStep_fst_of_badlen vm line h)
    · exact ih _ hm2

/-- Claim C1: if `is_valid` accepts an invoice then every rendered card line
is exactly 80 characters long and ASCII-only; any line of a different length
forces rejection; and the validator only records the diagnostic, never
altering (truncating or padding) the rendered lines. -/
theorem c1_accepted_invoice_lines_are_80_char_ascii
    (invoice_number : String) (vendor_code vck : Option String)
    (pac_lines : List String) :
    ((isValidOn invoice_number vendor_code vck pac_lines).1 = true →
      ∀ line ∈ pac_lines, line.length = 80 ∧ pyIsAscii line = true) ∧
    (∀ line ∈ pac_lines, line.length ≠ 80 →
      (isValidOn invoice_number vendor_code vck pac_lines).1 = false) ∧
    (∀ (d : InvoiceData) (b : Bool) (d' : InvoiceData),
      runIsValid d = .ok (b, d') → d'.pac_lines = d.pac_lines) := by
  refine ⟨?_, ?_, ?_⟩
  · intro h
    unfold isValidOn at h
    exact (foldl_validStep_true _ _ h).2
  · intro line hm hlen
    unfold isValidOn
    exact foldl_validStep_badmem _ _ _ hlen hm
  · intro d b d' h
    cases hn : d.invoice_number with
    | none => rw [runIsValid, hn] at h; cases h
    | some n =>
      rw [runIsValid, hn] at h
      simp only [Except.ok.injEq, Prod.mk.injEq] at h
      rw [← h.2]

theorem c1_witness : exLine80.length = 80 ∧ pyIsAscii exLine80 = true :=
  (c1_accepted_invoice_lines_are_80_char_ascii "INV1" (some "VEND") (some "ABC")
      [exLine80]).1 (by rfl) exLine80 (by simp)

/-! ## Last-matching-reason machinery for the diagnostic -/

theorem overwriteAll_append (vm : Bool × String) (a b : List String) :
    overwriteAll vm (a ++ b) = overwriteAll (overwriteAll vm a) b :=
  List.foldl_append _ _ _ _

theorem overwriteAll_spec (rs : List String) (vm : Bool × String) :
    overwriteAll vm rs = if rs = [] then vm else (false, lastReason rs) := by
  induction rs generalizing vm with
  | nil => rfl
  | cons r rs ih =>
    have h0 : overwriteAll vm (r :: rs) = overwriteAll (false, r) rs := rfl
    rw [h0, ih]
    cases rs with
    | nil => simp [lastReason]
    | cons r₂ rs₂ => simp [lastReason]

theorem validStep_eq_overwrite (vm : Bool × String) (line : String) :
    validStep vm line = overwriteAll vm (lineReasons line) := by
  unfold validStep lineReasons overwriteAll
  by_cases h1 : line.length = 80 <;> by_cases h2 : pyIsAscii line <;> simp [h1, h2]

theorem foldl_validStep_eq (L : List String) (vm : Bool × String) :
    L.foldl validStep vm = overwriteAll vm (L.flatMap lineReasons) := by
  induction L generalizing vm with
  | nil => rfl
  | cons l L ih =>
    rw [List.foldl_cons, ih, List.flatMap_cons, overwriteAll_append,
        validStep_eq_overwrite]

theorem isValidOn_eq_overwrite (n : String) (vendor vck : Option String)
    (L : List String) :
    isValidOn n vendor vck L = overwriteAll (true, "OK") (allReasons n vendor vck L) := by
  unfold isValidOn allReasons headerReasons
  by_cases hv : vendor = some "LBS" <;> by_cases hk : vck = none <;>
    cases hf : unwantedPrefixes.find? (fun p => pyStartsWith n p) <;>
    by_cases hp : procardMatch n <;>
    simp [hv, hk, hf, hp, foldl_validStep_eq, overwriteAll_append, overwriteAll]

/-- Claim C2 (amended): the recorded diagnostic has the form
`<invoice number> : <reason or OK>` where the reason is that of the LAST
matching rule in evaluation order (vendor code / absent VCK — mutually
exclusive, first matching prefix, procard pattern, then per rendered line
the length check followed by the ASCII check); the invoice is valid exactly
when no rule fires. -/
theorem c2_diagnostic_reports_last_matching_rule (n : String)
    (vendor vck : Option String) (L : List String) :
    validationMessageOn n vendor vck L =
      n ++ " : " ++ lastReason (allReasons n vendor vck L) ∧
    ((isValidOn n vendor vck L).1 = true ↔ allReasons n vendor vck L = []) := by
  have h := isValidOn_eq_overwrite n vendor vck L
  rw [overwriteAll_spec] at h
  by_cases hr : allReasons n vendor vck L = []
  · rw [if_pos hr] at h
    constructor
    · unfold validationMessageOn
      rw [h, hr]
      rfl
    · simp [h, hr]
  · rw [if_neg hr] at h
    constructor
    · unfold validationMessageOn
      rw [h]
    · simp [h, hr]

theorem c2_witness :
    validationMessageOn "INV1" (some "VEND") (some "ABC") [exLine80] =
      "INV1" ++ " : " ++
        lastReason (allReasons "INV1" (some "VEND") (some "ABC") [exLine80]) :=
  (c2_diagnostic_reports_last_matching_rule "INV1" (some "VEND") (some "ABC")
      [exLine80]).1

/-- Claim C2 counterexample: invoice number `ADJUST0001` from vendor `LBS`
violates both the vendor-code rule (first in the claimed order) and the
prefix rule, yet the recorded diagnostic carries the prefix reason — the
last matching rule — not the first. -/
theorem c2_counterexample :
    (some "LBS" : Option String) = some "LBS" ∧
    pyStartsWith "ADJUST0001" "ADJUST" = true ∧
    validationMessageOn "ADJUST0001" (some "LBS") (some "K") [] =
      "ADJUST0001 : Unwanted prefix: ADJUST" ∧
    validationMessageOn "ADJUST0001" (some "LBS") (some "K") [] ≠
      "ADJUST0001 : LBS Invoice" := by
  exact ⟨rfl, rfl, rfl, by decide⟩

/-- Claim C3 counterexample: `50012ABC3` (four digits after the leading 5)
does not match the procard regex, and an otherwise-clean invoice with that
number is accepted, contrary to the claim that it is rejected. -/
theorem c3_counterexample :
    procardMatch "50012ABC3" = false ∧
    (isValidOn "50012ABC3" (some "VEND") (some "ABC1234567") [exLine80]).1 = true := by
  exact ⟨rfl, rfl⟩

/-- Claim C3 (amended): an invoice number matching the procurement-card
pattern — `5`, three digits, three uppercase letters, a digit — is always
rejected (for example `5001ABC3`); the specific number `50012ABC3` does not
match the pattern and is not rejected by this rule. -/
theorem c3_procard_match_rejected (n : String) (vendor vck : Option String)
    (L : List String) (h : procardMatch n = true) :
    (isValidOn n vendor vck L).1 = false := by
  unfold isValidOn
  simp only [h, if_true]
  exact foldl_validStep_false L _ rfl

theorem c3_witness :
    (isValidOn "5001ABC3" (some "VEND") (some "ABC1234567") [exLine80]).1 = false :=
  c3_procard_match_rejected "5001ABC3" (some "VEND") (some "ABC1234567")
    [exLine80] (by rfl)

/-! ## Shipping split -/

/-- Claim C4: splitting a shipping (`ESH`) line of amount `X` leaves the
invoice line list containing the mutated original — amount
`round(0.8·X, 2)`, line number suffixed `-ESH`, pre-split amount retained —
and a deep-copied sibling with amount `round(0.2·X, 2)`, line code forced to
`TSH`, line number suffixed `-TSH`, tax classification recomputed from the
synthesized line code, all other fields copied; neither of the two equals
the unsplit original. -/
theorem c4_shipping_split (lines : List Line) (l : Line)
    (hm : l ∈ lines) (hc : l.line_code = "ESH") :
    (splitEshLine l).1 ∈ makeTshLines lines ∧
    (splitEshLine l).2 ∈ makeTshLines lines ∧
    (splitEshLine l).1.total_price = getDollars (l.total_price * (0.80 : ℚ)) ∧
    (splitEshLine l).1.line_number = l.line_number ++ "-ESH" ∧
    (splitEshLine l).1.original_price = some l.total_price ∧
    (splitEshLine l).2.total_price = getDollars (l.total_price * (0.20 : ℚ)) ∧
    (splitEshLine l).2.line_code = "TSH" ∧
    (splitEshLine l).2.line_number = l.line_number ++ "-TSH" ∧
    (splitEshLine l).2.original_price = some l.total_price ∧
    (splitEshLine l).2.pac_tax_code = getPacTaxCode l.lbs_tax_code "TSH" ∧
    (splitEshLine l).2.line_type = l.line_type ∧
    (splitEshLine l).2.note = l.note ∧
    (splitEshLine l).2.mms_id = l.mms_id ∧
    (splitEshLine l).2.po_line_number = l.po_line_number ∧
    (splitEshLine l).2.title = l.title ∧
    (splitEshLine l).2.lbs_tax_code = l.lbs_tax_code ∧
    (splitEshLine l).2.description = l.description ∧
    (splitEshLine l).2.fund_info = l.fund_info ∧
    (splitEshLine l).2.fund_count = l.fund_count ∧
    (splitEshLine l).1 ≠ l ∧
    (splitEshLine l).2 ≠ l := by
  refine ⟨?_, ?_, rfl, rfl, rfl, rfl, rfl, rfl, rfl, rfl, rfl, rfl, rfl, rfl,
    rfl, rfl, rfl, rfl, rfl, ?_, ?_⟩
  · apply List.mem_append_left
    have he : eshFix l = (splitEshLine l).1 := by rw [eshFix, if_pos hc]
    exact he ▸ List.mem_map_of_mem eshFix hm
  · apply List.mem_append_right
    exact List.mem_map_of_mem _ (List.mem_filter.mpr ⟨hm, by simp [hc]⟩)
  · intro he
    have hnum : l.line_number ++ "-ESH" = l.line_number := congrArg Line.line_number he
    have hlen := congrArg String.length hnum
    rw [String.length_append] at hlen
    have h4 : ("-ESH" : String).length = 4 := rfl
    omega
  · intro ht
    have hcode : ("TSH" : String) = l.line_code := congrArg Line.line_code ht
    rw [hc] at hcode
    exact absurd hcode (by decide)

theorem c4_witness : (splitEshLine exEshLine).2.line_number = "1-TSH" := by
  obtain ⟨-, -, -, -, -, -, -, h8, -⟩ :=
    c4_shipping_split [exEshLine] exEshLine (List.mem_singleton.mpr rfl) rfl
  exact h8

/-! ## `Except` bind reduction lemmas -/

theorem bindE_ok (a : α) (f : α → Except String β) :
    (Except.ok a >>= f : Except String β) = f a := rfl

theorem bindE_error (e : String) (f : α → Except String β) :
    (Except.error e >>= f : Except String β) = Except.error e := rfl

theorem pureE (a : α) : (pure a : Except String α) = Except.ok a := rfl

/-! ## Credit special-tax FAU rewrite: idempotence -/

theorem updateCreditFau_idem (uid : Option String) (l l₁ : Line)
    (h : updateCreditFau uid l = .ok l₁) : updateCreditFau uid l₁ = .ok l₁ := by
  unfold updateCreditFau at h ⊢
  by_cases hc : l.line_code = "CR " ∧ l.line_type = some "BA"
  · rw [if_pos hc] at h
    split at h
    next => cases h
    next e hp => cases h
    next f fs pf hfi hp =>
      simp only [Except.ok.injEq] at h
      subst h
      rw [if_pos (show _ ∧ _ from hc)]
      split
      next x hbad => exact absurd hbad (by simp)
      next a as e hbad heq =>
        have heq2 : getPacFau uid (specialTaxFau l.lbs_tax_code) = Except.error _ := heq
        rw [hp] at heq2
        cases heq2
      next f2 fs2 pf2 hf2 heq =>
        have heq2 : getPacFau uid (specialTaxFau l.lbs_tax_code) = Except.ok pf2 := heq
        rw [hp] at heq2
        have hpf : pf2 = pf := (Except.ok.injEq _ _ ▸ heq2).symm
        have hff : f2 = { f with fau := specialTaxFau l.lbs_tax_code, pac_fau := pf } ∧
            fs2 = fs := by
          simp only [List.cons.injEq] at hf2
          exact ⟨hf2.1.symm, hf2.2.symm⟩
        obtain ⟨rfl, rfl⟩ := hff
        subst hpf
        rfl
  · rw [if_neg hc] at h
    simp only [Except.ok.injEq] at h
    subst h
    rw [if_neg hc]

theorem mapE_idem (g : α → Except String α)
    (hg : ∀ a b, g a = .ok b → g b = .ok b) :
    ∀ (ls ls' : List α), mapE g ls = .ok ls' → mapE g ls' = .ok ls' := by
  intro ls
  induction ls with
  | nil => intro ls' h; cases h; rfl
  | cons a as ih =>
    intro ls' h
    unfold mapE at h
    cases ha : g a with
    | error e => rw [ha, bindE_error] at h; cases h
    | ok b =>
      rw [ha, bindE_ok] at h
      cases has : mapE g as with
      | error e => rw [has, bindE_error] at h; cases h
      | ok bs =>
        rw [has, bindE_ok] at h
        simp only [Except.ok.injEq] at h
        subst h
        unfold mapE
        rw [hg a b ha, bindE_ok, ih bs has, bindE_ok]

/-- Claim C5: the credit special-tax FAU rewrite is idempotent on
debit-type invoices — if one application succeeds, applying it again to
the rewritten line list returns exactly the same list (hence the same raw
FAU and PAC FAU on every affected fund allocation). -/
theorem c5_credit_fau_rewrite_idempotent (uid : Option String)
    (lines lines' : List Line)
    (h : updateCreditFaus uid "D" lines = .ok lines') :
    updateCreditFaus uid "D" lines' = .ok lines' := by
  unfold updateCreditFaus at h ⊢
  rw [if_pos rfl] at h ⊢
  exact mapE_idem _ (updateCreditFau_idem uid) lines lines' h

/-! ## Totals -/

theorem foldl_totalsStep (lines : List Line) (t : Totals) :
    lines.foldl totalsStep t =
      ⟨t.state_taxable + (lines.map stContrib).sum,
       t.vendor_taxable + (lines.map vtContrib).sum,
       t.non_taxable + (lines.map ntContrib).sum,
       t.state_tax + (lines.map staxContrib).sum,
       t.vendor_tax + (lines.map vtaxContrib).sum⟩ := by
  induction lines generalizing t with
  | nil => simp
  | cons l ls ih =>
    rw [List.foldl_cons, ih]
    simp only [List.map_cons, List.sum_cons]
    have hstep : totalsStep t l =
        ⟨t.state_taxable + stContrib l, t.vendor_taxable + vtContrib l,
         t.non_taxable + ntContrib l, t.state_tax + staxContrib l,
         t.vendor_tax + vtaxContrib l⟩ := by
      unfold totalsStep stContrib vtContrib ntContrib staxContrib vtaxContrib
      split_ifs <;> (simp_all; try ring_nf)
    rw [hstep]
    simp only [Totals.mk.injEq]
    refine ⟨by ring, by ring, by ring, by ring, by ring⟩

/-- Claim C6: the PAC invoice total equals the sum of the state-taxable,
vendor-taxable, non-taxable and vendor-tax buckets of the totals aggregator
(equivalently, the sum of the per-line contributions of the classification
table, state tax excluded), and the invoice type is `D` exactly when this
total is non-negative, `C` exactly when it is negative. -/
theorem c6_pac_total_and_invoice_type (lines : List Line) :
    totalAmountPac lines =
      (lines.map stContrib).sum + (lines.map vtContrib).sum +
        (lines.map ntContrib).sum + (lines.map vtaxContrib).sum ∧
    totalAmountPac lines =
      (totalsOf lines).state_taxable + (totalsOf lines).vendor_taxable +
        (totalsOf lines).non_taxable + (totalsOf lines).vendor_tax ∧
    (getInvoiceType (totalAmountPac lines) = "D" ↔ 0 ≤ totalAmountPac lines) ∧
    (getInvoiceType (totalAmountPac lines) = "C" ↔ ¬ 0 ≤ totalAmountPac lines) := by
  refine ⟨?_, rfl, ?_, ?_⟩
  · unfold totalAmountPac totalsOf
    rw [foldl_totalsStep]
    simp
  · unfold getInvoiceType
    split_ifs with h
    · simp [ge_iff_le] at h
      simp [h]
    · simp [ge_iff_le] at h
      constructor
      · intro hds; exact absurd hds (by decide)
      · intro h0; exact absurd h0 (by exact not_le.mpr h)
  · unfold getInvoiceType
    split_ifs with h
    · rw [ge_iff_le] at h
      constructor
      · intro hds; exact absurd hds (by decide)
      · intro h0; exact absurd h h0
    · rw [ge_iff_le, not_le] at h
      simp [not_le.mpr h]

theorem c6_witness :
    getInvoiceType (totalAmountPac [exNoFundLine]) = "D" ↔
      0 ≤ totalAmountPac [exNoFundLine] :=
  (c6_pac_total_and_invoice_type [exNoFundLine]).2.2.1

theorem c5_witness :
    updateCreditFaus (some "UID1234567") "D"
        [{ exCrLine with fund_info :=
            [⟨-7, "4 115523    18888        ", some "F", none,
              "4115523  18888            123456"⟩] }] =
      .ok [{ exCrLine with fund_info :=
            [⟨-7, "4 115523    18888        ", some "F", none,
              "4115523  18888            123456"⟩] }] :=
  c5_credit_fau_rewrite_idempotent (some "UID1234567") [exCrLine] _ (by rfl)

/-! ## Line ordering -/

theorem bindE_eq_ok {x : Except String α} {f : α → Except String β} {c : β}
    (h : (x >>= f) = .ok c) : ∃ a, x = .ok a ∧ f a = .ok c := by
  cases x with
  | error e => rw [bindE_error] at h; cases h
  | ok a => exact ⟨a, rfl, by rwa [bindE_ok] at h⟩

theorem mapE_mem_ok (g : α → Except String β) :
    ∀ (ls : List α) (bs : List β), mapE g ls = .ok bs →
      ∀ b ∈ bs, ∃ a ∈ ls, g a = .ok b := by
  intro ls
  induction ls with
  | nil => intro bs h b hb; cases h; cases hb
  | cons a as ih =>
    intro bs h b hb
    unfold mapE at h
    obtain ⟨b0, hb0, h⟩ := bindE_eq_ok h
    obtain ⟨bs0, hbs0, h⟩ := bindE_eq_ok h
    simp only [Except.ok.injEq] at h
    subst h
    rcases List.mem_cons.mp hb with rfl | hb2
    · exact ⟨a, List.mem_cons_self a as, hb0⟩
    · obtain ⟨a2, ha2, hg2⟩ := ih bs0 hbs0 b hb2
      exact ⟨a2, List.mem_cons_of_mem a ha2, hg2⟩

theorem lineSortKey_ok (l : RawLine) (p : Int × RawLine)
    (h : lineSortKey l = .ok p) : seqKeyRaw p.2 = p.1 ∧ p.2 = l := by
  unfold lineSortKey at h
  rcases hn : l.line_number with _ | s
  · rw [hn] at h; cases h
  · rw [hn] at h
    dsimp only at h
    rcases hk : pyInt? s with _ | k
    · rw [hk] at h; cases h
    · rw [hk] at h
      dsimp only at h
      simp only [Except.ok.injEq] at h
      subst h
      refine ⟨?_, rfl⟩
      unfold seqKeyRaw
      rw [hn]
      simp [hk]

theorem sortLines_sorted (raws out : List RawLine)
    (h : sortLines raws = .ok out) :
    List.Pairwise (fun a b => seqKeyRaw a ≤ seqKeyRaw b) out := by
  unfold sortLines at h
  obtain ⟨keyed, hk, h⟩ := bindE_eq_ok h
  simp only [Except.ok.injEq] at h
  subst h
  have hmem : ∀ p ∈ keyed, seqKeyRaw p.2 = p.1 := by
    intro p hp
    obtain ⟨a, _, hg⟩ := mapE_mem_ok _ raws keyed hk p hp
    exact (lineSortKey_ok a p hg).1
  haveI ht1 : IsTotal (Int × RawLine) (fun a b => a.1 ≤ b.1) :=
    ⟨fun a b => le_total a.1 b.1⟩
  haveI ht2 : IsTrans (Int × RawLine) (fun a b => a.1 ≤ b.1) :=
    ⟨fun _ _ _ hab hbc => le_trans hab hbc⟩
  have hs : List.Pairwise (fun a b : Int × RawLine => a.1 ≤ b.1)
      (keyed.insertionSort (fun a b => a.1 ≤ b.1)) :=
    List.sorted_insertionSort _ _
  rw [List.pairwise_map]
  refine List.Pairwise.imp_of_mem ?_ hs
  intro a b hma hmb hr
  have hka := hmem a ((List.perm_insertionSort _ keyed).mem_iff.mp hma)
  have hkb := hmem b ((List.perm_insertionSort _ keyed).mem_iff.mp hmb)
  rw [hka, hkb]
  exact hr

theorem requireSome_ok (msg : String) (v : Option α) (a : α)
    (h : requireSome msg v = .ok a) : v = some a := by
  cases v with
  | none => cases h
  | some b => cases h; rfl

theorem addLineData_line_number (uid : Option String) (r : RawLine) (l : Line)
    (h : addLineData uid r = .ok l) : r.line_number = some l.line_number := by
  unfold addLineData at h
  obtain ⟨lc, hlc, h⟩ := bindE_eq_ok h
  obtain ⟨lbs, hlbs, h⟩ := bindE_eq_ok h
  obtain ⟨desc, hdesc, h⟩ := bindE_eq_ok h
  obtain ⟨ln, hln, h⟩ := bindE_eq_ok h
  obtain ⟨funds, hfunds, h⟩ := bindE_eq_ok h
  simp only [Except.ok.injEq] at h
  subst h
  exact requireSome_ok _ _ _ hln

theorem lineSeq_eshFix (l : Line) : lineSeq (eshFix l) = lineSeq l := by
  unfold eshFix
  split_ifs with hc
  · unfold lineSeq splitEshLine
    dsimp only
    rw [show (l.line_number ++ "-ESH").data = l.line_number.data ++ "-ESH".data from
      String.data_append _ _]
    rw [List.takeWhile_append]
    split_ifs with hlen
    · have h0 : List.takeWhile Char.isDigit "-ESH".data = [] := rfl
      rw [h0, List.append_nil, (List.takeWhile_prefix _).eq_of_length hlen]
    · rfl
  · rfl

/-- Claim C7 (amended): the extracted line list is sorted in ascending
numeric order of the line sequence numbers; zero-amount removal is a filter
(order-preserving) and per-line enrichment keeps each line number; but the
shipping split appends every synthesized TSH line at the END of the list
(after the in-place-updated originals, whose numeric sequence components it
preserves), so after the split the list is the sorted original lines
followed by the TSH lines, not globally sorted. -/
theorem c7_order_sorted_at_extraction_split_appends :
    (∀ raws out, sortLines raws = .ok out →
      List.Pairwise (fun a b => seqKeyRaw a ≤ seqKeyRaw b) out) ∧
    (∀ (uid : Option String) (r : RawLine) (l : Line),
      addLineData uid r = .ok l → r.line_number = some l.line_number) ∧
    (∀ lines : List Line,
      makeTshLines lines = lines.map eshFix ++
        (lines.filter (fun l => l.line_code = "ESH")).map
          (fun l => (splitEshLine l).2) ∧
      (lines.map eshFix).map lineSeq = lines.map lineSeq) := by
  refine ⟨sortLines_sorted, addLineData_line_number, ?_⟩
  intro lines
  refine ⟨rfl, ?_⟩
  rw [List.map_map]
  exact List.map_congr_left (fun l _ => lineSeq_eshFix l)

theorem c7_witness :
    List.Pairwise (fun a b => seqKeyRaw a ≤ seqKeyRaw b) [exRaw1, exRaw2] :=
  (c7_order_sorted_at_extraction_split_appends).1 [exRaw2, exRaw1]
    [exRaw1, exRaw2] (by rfl)

/-- Claim C7 counterexample: for the concrete invoice `cex7Xml` — shipping
line 1 followed by plain line 2 — the fully built invoice line list carries
numeric sequence components `[1, 2, 1]`: the synthesized TSH sibling of
line 1 sits after line 2, so at the totals and serialization stages the list
is NOT in ascending numeric order of line sequence number. -/
theorem c7_counterexample :
    (buildInvoice cex7Xml).map (fun d => d.invoice_lines.map lineSeq) =
      .ok [1, 2, 1] ∧
    ¬ List.Pairwise (fun a b : Nat => a ≤ b) [1, 2, 1] := by
  exact ⟨by with_unfolding_all rfl, by decide⟩

/-! ## Parse-error propagation (`Invoice.__init__` as a catchable failure) -/

theorem pyUpper_append (a b : String) :
    pyUpper (a ++ b) = pyUpper a ++ pyUpper b := by
  show String.mk ((a ++ b).data.map Char.toUpper) =
    String.mk (a.data.map Char.toUpper ++ b.data.map Char.toUpper)
  rw [String.data_append, List.map_append]

theorem str_append_empty (s : String) : s ++ "" = s := by
  apply String.ext
  rw [String.data_append]
  exact List.append_nil _

theorem strAppendAssoc (a b c : String) : (a ++ b) ++ c = a ++ (b ++ c) := by
  apply String.ext
  simp [String.data_append]

theorem upper_join_newlines : ∀ L : List String, L ≠ [] →
    pyUpper (pyJoinNl L) ++ "\n" =
      joinAll (L.map (fun l => pyUpper l ++ "\n")) := by
  intro L
  induction L with
  | nil => intro h; exact absurd rfl h
  | cons l rest ih =>
    intro _
    cases rest with
    | nil =>
      show pyUpper l ++ "\n" = (pyUpper l ++ "\n") ++ ""
      rw [str_append_empty]
    | cons l2 L2 =>
      have e1 : pyUpper (pyJoinNl (l :: l2 :: L2)) ++ "\n" =
          (pyUpper l ++ "\n") ++ (pyUpper (pyJoinNl (l2 :: L2)) ++ "\n") := by
        rw [show pyJoinNl (l :: l2 :: L2) = l ++ "\n" ++ pyJoinNl (l2 :: L2) from rfl,
            pyUpper_append, pyUpper_append,
            show pyUpper "\n" = "\n" from rfl]
        simp only [strAppendAssoc]
      rw [e1, ih (by simp)]
      rfl

/-- Claim C9: the serialized PAC output is the upper-cased newline-join of
the invoice card lines followed by ONE trailing newline for the whole
invoice block; equivalently (for the nonempty line lists every invoice has)
it is the concatenation of the upper-cased lines, one physical line each. -/
theorem c9_pac_format_upper_join_single_newline (d : InvoiceData) :
    getPacFormat d = pyUpper (pyJoinNl d.pac_lines) ++ "\n" ∧
    (d.pac_lines ≠ [] →
      getPacFormat d = joinAll (d.pac_lines.map (fun l => pyUpper l ++ "\n"))) := by
  have h1 : getPacFormat d = pyUpper (pyJoinNl d.pac_lines) ++ "\n" := by
    unfold getPacFormat
    rw [pyUpper_append]
    rfl
  exact ⟨h1, fun hne => h1.trans (upper_join_newlines _ hne)⟩

theorem c9_witness :
    getPacFormat exData9 =
      joinAll (exData9.pac_lines.map (fun l => pyUpper l ++ "\n")) :=
  (c9_pac_format_upper_join_single_newline exData9).2 (by simp [exData9])

/-! ## Zero-fund lines in the card emitter -/

/-- Claim C10: an invoice line with zero fund allocations that receives a
Z21 card gets the blank-FAU third line — the same layout as any multi-fund
line with the same line code — and its block contains exactly the three Z21
lines, no Z41 continuation cards; the Z21 loop emits that block followed by
the rest. -/
theorem c10_zero_fund_line_blank_fau_no_z41 (pac_vck : String)
    (pin : Option String) (n : Nat) (l : Line)
    (hf : l.fund_info = []) (hc : l.fund_count = l.fund_info.length)
    (hn : needsZ21LineItem l = true) :
    getZ21Line3 l = .ok (z21Line3Blank l.line_code) ∧
    (∀ p, pin = some p → z21Block pac_vck pin n l =
      .ok ["Z210101 A" ++ pac_vck ++ " " ++ p ++ pyRjust (toString n) 4 '0' ++
             l.line_code ++ getBlanks 31,
           getZ21Line2 l, z21Line3Blank l.line_code]) ∧
    (∀ rest : List Line, z21Go pac_vck pin n (l :: rest) =
      (z21Block pac_vck pin (n + 1) l).bind (fun b =>
        (z21Go pac_vck pin (n + 1) rest).bind (fun r => .ok (b ++ r)))) ∧
    (∀ l2 : Line, l2.fund_count ≠ 1 → l2.line_code = l.line_code →
      getZ21Line3 l2 = getZ21Line3 l) := by
  have hc0 : l.fund_count = 0 := by rw [hc, hf]; rfl
  have h3 : getZ21Line3 l = .ok (z21Line3Blank l.line_code) := by
    unfold getZ21Line3
    rw [if_neg (by rw [hc0]; exact Nat.zero_ne_one)]
  refine ⟨h3, ?_, ?_, ?_⟩
  · intro p hp
    subst hp
    unfold z21Block getZ21Line1
    rw [bindE_ok, h3, bindE_ok]
    unfold z41IfMulti
    rw [hc0, if_neg (by decide), bindE_ok, List.append_nil]
  · intro rest
    have he : z21Go pac_vck pin n (l :: rest) =
        if needsZ21LineItem l = true then
          (z21Block pac_vck pin (n + 1) l).bind (fun b =>
            (z21Go pac_vck pin (n + 1) rest).bind (fun r => .ok (b ++ r)))
        else z21Go pac_vck pin n rest := rfl
    rw [he, if_pos hn]
  · intro l2 h1 h2
    unfold getZ21Line3
    rw [if_neg h1, if_neg (by rw [hc0]; exact Nat.zero_ne_one), h2]

theorem c10_witness : getZ21Line3 exNoFundLine = .ok (z21Line3Blank "DR ") :=
  (c10_zero_fund_line_blank_fau_no_z41 "V" (some "P") 0 exNoFundLine rfl rfl
    (by decide)).1

end AlmaInvoice
